import Mathlib

/-!
Shallow embedding of `src/server.js` (Google Workspace OAuth façade, v2.0.0):
the keyword classifier `inferType` with its `PATTERN_RULES`, the
`EVENT_COLOR_MAP` color policy, the create/update event enrichment performed
by the `POST /events` and `PUT /events/:eventId` handlers, the single-slot
token store with the `/callback` exchange, and the authentication /
validation guards of every proxied route.

JavaScript strings are Lean `String`; a JSON field that may be `undefined`
is `Option`; a field where `undefined`, `null` and a value are distinguished
by the code is `JsonField`. JS truthiness on strings (empty string, `null`
and `undefined` are falsy) is modelled explicitly.
-/

/-- Substring containment on character lists: `containsSub pat text` is true
iff `pat` occurs contiguously anywhere in `text` (the semantics of JS
`text.includes(pat)`, case-sensitive, no word boundaries). -/
def containsSub (pat : List Char) : List Char → Bool
  | [] => pat.isPrefixOf []
  | c :: cs => pat.isPrefixOf (c :: cs) || containsSub pat cs

/-- JS `text.includes(pat)` for strings. -/
def includes (text pat : String) : Bool :=
  containsSub pat.data text.data

/-- JS truthiness of a possibly-absent string: `undefined`/`null` (here
`none`) and the empty string are falsy. -/
def strFalsy : Option String → Bool
  | none => true
  | some s => s == ""

/-- `PATTERN_RULES` from `src/server.js` lines 132-137, in JS object
declaration order (`Object.entries` iterates string keys in insertion
order): 가족 (family), 업무 (work), 자기계발 (self-improvement), 개인
(personal), each with its trigger substrings in declared order. -/
def PATTERN_RULES : List (String × List String) :=
  [ ("가족", ["가족으로", "가족에", "가족과", "가족"])
  , ("업무", ["업무로", "업무에", "업무", "회의", "사업", "업무로 등록"])
  , ("자기계발", ["자기계발", "공부", "독서", "운동", "학습", "자기계발로"])
  , ("개인", ["개인으로", "개인에", "개인적", "개인"]) ]

/-- Inner loop of `inferType`: scan one type's trigger list in order,
true as soon as one occurs in `summary` (the early `return` of the JS
`for (const pattern of patterns)` loop). -/
def firstPattern (summary : String) : List String → Bool
  | [] => false
  | p :: ps => includes summary p || firstPattern summary ps

/-- Outer loop of `inferType`: walk the rule list in declaration order and
return the first type one of whose triggers occurs in `summary`. -/
def scanRules (summary : String) : List (String × List String) → Option String
  | [] => none
  | (ty, pats) :: rest =>
      if firstPattern summary pats then some ty else scanRules summary rest

/-- `inferType` from `src/server.js` lines 140-150. The argument is an
optional string because the JS function may receive `undefined`; the
`if (!summary) return null` guard rejects absent and empty input. -/
def inferType (summary : Option String) : Option String :=
  if strFalsy summary then none
  else scanRules (summary.getD "") PATTERN_RULES

/-- Reference definition of the classifier, written from the specification
(§4.1): empty or absent input yields none; otherwise find the first event
type, in the fixed declaration order family > work > self-improvement >
personal, one of whose trigger substrings occurs case-sensitively anywhere
in the text, and return it; none if no trigger of any type occurs. -/
def inferTypeSpec (text : Option String) : Option String :=
  match text with
  | none => none
  | some s =>
      if s = "" then none
      else
        (PATTERN_RULES.find? (fun r => r.2.any (fun p => includes s p))).map
          Prod.fst

theorem firstPattern_eq_any (s : String) (ps : List String) :
    firstPattern s ps = ps.any (fun p => includes s p) := by
  induction ps with
  | nil => rfl
  | cons p ps ih => simp [firstPattern, ih]

theorem scanRules_eq_find (s : String) (rs : List (String × List String)) :
    scanRules s rs =
      (rs.find? (fun r => r.2.any (fun p => includes s p))).map Prod.fst := by
  induction rs with
  | nil => rfl
  | cons r rs ih =>
      obtain ⟨ty, pats⟩ := r
      by_cases h : pats.any (fun p => includes s p) = true
      · simp [scanRules, firstPattern_eq_any, List.find?_cons, h]
      · simp [scanRules, firstPattern_eq_any, List.find?_cons, h, ih]

/-- C1: `inferType` behaves exactly as the reference classifier definition:
none on empty or absent text, otherwise the first type in the declared
order family > work > self-improvement > personal one of whose triggers,
tested in declared order, occurs as a case-sensitive substring of the text;
none when no trigger occurs. -/
theorem inferType_refines_spec (text : Option String) :
    inferType text = inferTypeSpec text := by
  cases text with
  | none => rfl
  | some s =>
      by_cases h : s = ""
      · simp [inferType, inferTypeSpec, strFalsy, h]
      · simp [inferType, inferTypeSpec, strFalsy, h, scanRules_eq_find]

example : inferType (some "가족과 저녁 식사") = some "가족" := by decide
example : inferType (some "업무 회의") = some "업무" := by decide
example : inferType (some "가족과 업무 회의") = some "가족" := by decide
example : inferType (some "") = none := by decide
example : inferType none = none := by decide
example : inferType (some "hello") = none := by decide

/-- `EVENT_COLOR_MAP` from `src/server.js` lines 124-129, as an association
list in declaration order: 자기계발 (self-improvement) → "2", 개인
(personal) → "1", 업무 (work) → "6", 가족 (family) → "5". JS property
lookup on this plain object is association-list lookup. -/
def EVENT_COLOR_MAP : List (String × String) :=
  [("자기계발", "2"), ("개인", "1"), ("업무", "6"), ("가족", "5")]

/-- A JSON field whose `undefined`, `null` and value states the code
distinguishes (`type !== undefined`, `type === null`, …). -/
inductive JsonField (α : Type) where
  | absent : JsonField α
  | null : JsonField α
  | val : α → JsonField α
deriving DecidableEq

/-- JS truthiness of such a field: `undefined`, `null` and `""` are falsy. -/
def fieldFalsy : JsonField String → Bool
  | .absent => true
  | .null => true
  | .val s => s == ""

/-- One caller-supplied reminder override as received in the request body:
`method` may be absent (defaulted to "popup" by the code), `minutes` is
passed through unchanged. -/
structure ReminderInput where
  method : Option String
  minutes : Nat
deriving DecidableEq

/-- One reminder override as emitted upstream: `method` always present. -/
structure ReminderOverride where
  method : String
  minutes : Nat
deriving DecidableEq

/-- The `reminders` block of an outgoing payload: `{useDefault, overrides?}`;
`overrides = none` models a block `{useDefault: true}` with no overrides
array. -/
structure RemindersBlock where
  useDefault : Bool
  overrides : Option (List ReminderOverride)
deriving DecidableEq

/-- `reminders.map(r => ({method: r.method || 'popup', minutes: r.minutes}))`
applied to one entry (`src/server.js` lines 193-196 and 262-265). -/
def mapReminder (r : ReminderInput) : ReminderOverride :=
  { method := match r.method with
      | none => "popup"
      | some m => if m = "" then "popup" else m
    minutes := r.minutes }

/-- A `{dateTime, timeZone}` start/end block of an outgoing payload. -/
structure TimeBlock where
  dateTime : String
  timeZone : String
deriving DecidableEq

/-- Body of a `POST /events` request. `summary`, `start`, `end` and
`description` fold JS `undefined`/`null` into `none` (the code only ever
tests their truthiness); `type` keeps all three JSON states because
`type || inferType(summary)` treats `""` and `null` alike (falsy) while a
caller can send either; `reminders` is `none` when absent or null (both
falsy at `reminders && reminders.length > 0`). -/
structure CreateBody where
  summary : Option String
  start : Option String
  endTime : Option String
  description : Option String
  type : JsonField String
  reminders : Option (List ReminderInput)
deriving DecidableEq

/-- The enriched event assembled by the create handler and sent upstream. -/
structure EventPayload where
  summary : String
  description : Option String
  start : TimeBlock
  endTime : TimeBlock
  colorId : Option String
  reminders : Option RemindersBlock
deriving DecidableEq

/-- Outcome of a request handler: an early JSON response with the given
HTTP status, produced before any upstream network call, or an upstream API
call carrying the forwarded payload. -/
inductive HandlerAction (α : Type) where
  | respond : Nat → HandlerAction α
  | callUpstream : α → HandlerAction α
deriving DecidableEq

/-- Stored credential bundle (`tokens` from the OAuth exchange): opaque
access token, optional refresh token, expiry timestamp. -/
structure TokenBundle where
  access_token : String
  refresh_token : Option String
  expiry_date : Nat
deriving DecidableEq

/-- `const inferredType = type || inferType(summary)` (`src/server.js`
line 169): the declared type when truthy, otherwise the inferred one. -/
def declaredOrInferred (ty : JsonField String) (summary : Option String) :
    Option String :=
  match ty with
  | .val s => if s = "" then inferType summary else some s
  | _ => inferType summary

/-- The create-path reminders block (`src/server.js` lines 190-198):
`if (reminders && reminders.length > 0)` attach
`{useDefault: true, overrides: reminders.map(...)}`, otherwise no
`reminders` field at all. `none` covers both an absent and a null input
(both falsy at the `reminders &&` check). -/
def createReminders : Option (List ReminderInput) → Option RemindersBlock
  | some rs =>
      if rs.length > 0 then
        some { useDefault := true, overrides := some (rs.map mapReminder) }
      else none
  | none => none

/-- The `POST /events` handler (`src/server.js` lines 153-213): 401 when no
token bundle is stored, then 400 when `summary`, `start` or `end` is falsy,
then enrichment (color from declared-or-inferred type, reminders block when
a non-empty list was supplied) and the upstream insert call. -/
def postEvents (st : Option TokenBundle) (body : CreateBody) :
    HandlerAction EventPayload :=
  if st.isNone then .respond 401
  else if strFalsy body.summary || strFalsy body.start ||
      strFalsy body.endTime then .respond 400
  else
    .callUpstream
      { summary := body.summary.getD ""
        description := body.description
        start := { dateTime := body.start.getD "", timeZone := "Asia/Seoul" }
        endTime := { dateTime := body.endTime.getD "", timeZone := "Asia/Seoul" }
        colorId := (declaredOrInferred body.type body.summary).bind
          (fun t => List.lookup t EVENT_COLOR_MAP)
        reminders := createReminders body.reminders }

/-- Body of a `PUT /events/:eventId` request: every field optional. `type`
and `reminders` keep all three JSON states (`undefined` / `null` / value)
because the handler distinguishes them; `summary` and `description` too,
since a `null` value would survive the final undefined-stripping pass;
`start`/`end` keep them because the ternary `start ? {...} : undefined`
tests truthiness. -/
structure UpdateBody where
  summary : JsonField String
  start : JsonField String
  endTime : JsonField String
  description : JsonField String
  type : JsonField String
  reminders : JsonField (List ReminderInput)
deriving DecidableEq

/-- The partial payload sent upstream by the update handler, after
`Object.keys(event).forEach(... delete ...)` removed the `undefined`
fields: a `JsonField` that is `.absent` models a field absent from the
payload, `.null` a field explicitly present with value null. -/
structure UpdatePayload where
  summary : JsonField String
  start : Option TimeBlock
  endTime : Option TimeBlock
  description : JsonField String
  colorId : JsonField String
  reminders : Option RemindersBlock
deriving DecidableEq

/-- `start ? {dateTime: start, timeZone: 'Asia/Seoul'} : undefined`: a block
only when the field is truthy. -/
def timeBlockOf : JsonField String → Option TimeBlock
  | .val s => if s = "" then none else some { dateTime := s, timeZone := "Asia/Seoul" }
  | _ => none

/-- The update-path colorId block (`src/server.js` lines 242-249 with the
undefined-stripping at line 270): when `type` is absent nothing is set, so
the field is later stripped; `type === null` stores an explicit null (which
strict-compares unequal to undefined and so survives the strip); a mapped
type stores its color; an unmapped type stores nothing and the field is
stripped. -/
def updateColorId : JsonField String → JsonField String
  | .absent => .absent
  | .null => .null
  | .val t =>
      match List.lookup t EVENT_COLOR_MAP with
      | some c => .val c
      | none => .absent

/-- The update-path reminders block (`src/server.js` lines 252-268):
nothing when `reminders` is absent; `{useDefault: true}` alone when it is
null or an empty list; `{useDefault: true, overrides: reminders.map(...)}`
for a non-empty list. -/
def updateReminders : JsonField (List ReminderInput) → Option RemindersBlock
  | .absent => none
  | .null => some { useDefault := true, overrides := none }
  | .val rs =>
      if rs.length = 0 then some { useDefault := true, overrides := none }
      else some { useDefault := true, overrides := some (rs.map mapReminder) }

/-- The `PUT /events/:eventId` handler (`src/server.js` lines 216-286):
401 when no token bundle is stored; otherwise build the partial event —
colorId only when `type !== undefined` (explicit null clears, a mapped type
sets the color, an unmapped type leaves the field out), reminders only when
`reminders !== undefined` (null or empty list gives `{useDefault: true}`
alone, a non-empty list adds mapped overrides) — strip undefined fields and
call upstream. -/
def putEvents (st : Option TokenBundle) (eventId : String) (body : UpdateBody) :
    HandlerAction (String × UpdatePayload) :=
  if st.isNone then .respond 401
  else
    .callUpstream (eventId,
      { summary := body.summary
        start := timeBlockOf body.start
        endTime := timeBlockOf body.endTime
        description := body.description
        colorId := updateColorId body.type
        reminders := updateReminders body.reminders })

/-- `let storedTokens = null` (`src/server.js` line 21): the token slot is
empty at startup. -/
def initialTokens : Option TokenBundle := none

/-- `!!storedTokens`: the authenticated predicate every route checks. -/
def isAuthenticated (st : Option TokenBundle) : Bool := st.isSome

/-- Result of the OAuth code exchange attempted by the callback handler. -/
inductive ExchangeResult where
  | failed : ExchangeResult
  | ok : TokenBundle → ExchangeResult
deriving DecidableEq

/-- The `GET /callback` handler (`src/server.js` lines 60-81) as a state
transformer on the token slot: missing (or empty) `code` → 400, then on a
successful exchange `storedTokens = tokens` — an unconditional overwrite of
the whole slot — and 200; a failed exchange leaves the slot unchanged and
answers 500. Returns the new slot and the HTTP status. -/
def handleCallback (st : Option TokenBundle) (code : Option String)
    (ex : ExchangeResult) : Option TokenBundle × Nat :=
  if strFalsy code then (st, 400)
  else
    match ex with
    | .failed => (st, 500)
    | .ok tokens => (some tokens, 200)

/-- `GET /events` (`src/server.js` lines 96-121): 401 guard, then the
upstream list call. -/
def getEvents (st : Option TokenBundle) : HandlerAction Unit :=
  if st.isNone then .respond 401 else .callUpstream ()

/-- `DELETE /events/:eventId` (`src/server.js` lines 289-313). -/
def deleteEvent (st : Option TokenBundle) (eventId : String) :
    HandlerAction String :=
  if st.isNone then .respond 401 else .callUpstream eventId

/-- `GET /mail` (`src/server.js` lines 320-363): 401 guard, then upstream,
forwarding `parseInt(maxResults) || 20` and the optional query. -/
def getMail (st : Option TokenBundle) (maxResults : Option Nat)
    (q : Option String) : HandlerAction (Nat × Option String) :=
  if st.isNone then .respond 401
  else .callUpstream (match maxResults with
    | some n => if n = 0 then 20 else n
    | none => 20, q)

/-- `GET /mail/:messageId` (`src/server.js` lines 366-401). -/
def getMailMessage (st : Option TokenBundle) (messageId : String) :
    HandlerAction String :=
  if st.isNone then .respond 401 else .callUpstream messageId

/-- `GET /mail/threads/:threadId` (`src/server.js` lines 404-428). -/
def getMailThread (st : Option TokenBundle) (threadId : String) :
    HandlerAction String :=
  if st.isNone then .respond 401 else .callUpstream threadId

/-- `GET /drive/files` (`src/server.js` lines 435-461). -/
def getDriveFiles (st : Option TokenBundle) (pageSize : Option Nat)
    (q : Option String) : HandlerAction (Nat × String) :=
  if st.isNone then .respond 401
  else .callUpstream (match pageSize with
    | some n => if n = 0 then 20 else n
    | none => 20, q.getD "")

/-- `GET /drive/files/:fileId` (`src/server.js` lines 464-488). -/
def getDriveFile (st : Option TokenBundle) (fileId : String) :
    HandlerAction String :=
  if st.isNone then .respond 401 else .callUpstream fileId

/-- `GET /docs/:documentId` (`src/server.js` lines 495-518). -/
def getDocument (st : Option TokenBundle) (documentId : String) :
    HandlerAction String :=
  if st.isNone then .respond 401 else .callUpstream documentId

/-- `GET /sheets/:spreadsheetId` (`src/server.js` lines 525-548). -/
def getSpreadsheet (st : Option TokenBundle) (spreadsheetId : String) :
    HandlerAction String :=
  if st.isNone then .respond 401 else .callUpstream spreadsheetId

/-- `GET /sheets/:spreadsheetId/:sheetId` (`src/server.js` lines 551-576),
forwarding the range `sheetId!range` with range defaulted to `A:Z`. -/
def getSheetData (st : Option TokenBundle) (spreadsheetId sheetId : String)
    (range : Option String) : HandlerAction (String × String) :=
  if st.isNone then .respond 401
  else .callUpstream (spreadsheetId, sheetId ++ "!" ++ (range.getD "A:Z"))

/-! Demonstration inputs used by the concrete witnesses below. -/

def demoBundle : TokenBundle :=
  { access_token := "ya29.demo-access"
    refresh_token := some "1refresh-old"
    expiry_date := 1735689600000 }

def demoBundle2 : TokenBundle :=
  { access_token := "ya29.demo-new"
    refresh_token := none
    expiry_date := 1767225600000 }

def demoCreateBody : CreateBody :=
  { summary := some "가족과 저녁 식사"
    start := some "2025-01-01T18:00:00"
    endTime := some "2025-01-01T20:00:00"
    description := none
    type := .absent
    reminders := none }

def demoCreatePayload : EventPayload :=
  { summary := "가족과 저녁 식사"
    description := none
    start := { dateTime := "2025-01-01T18:00:00", timeZone := "Asia/Seoul" }
    endTime := { dateTime := "2025-01-01T20:00:00", timeZone := "Asia/Seoul" }
    colorId := some "5"
    reminders := none }

def demoUpdateBody : UpdateBody :=
  { summary := .absent, start := .absent, endTime := .absent
    description := .absent, type := .null, reminders := .null }

def demoUpdatePayload : UpdatePayload :=
  { summary := .absent, start := none, endTime := none, description := .absent
    colorId := .null
    reminders := some { useDefault := true, overrides := none } }

def demoReminderBody : CreateBody :=
  { demoCreateBody with
      reminders := some [{ method := some "popup", minutes := 1440 }] }

def demoReminderPayload : EventPayload :=
  { demoCreatePayload with
      reminders :=
        some { useDefault := true, overrides := some [⟨"popup", 1440⟩] } }

def badBody : CreateBody :=
  { summary := some "회의"
    start := none
    endTime := some "2025-01-01T10:00:00"
    description := none
    type := .absent
    reminders := none }

def emptyTypeBody : CreateBody :=
  { summary := some "가족 모임"
    start := some "2025-02-01T12:00:00"
    endTime := some "2025-02-01T13:00:00"
    description := none
    type := .val ""
    reminders := none }

example : postEvents (some demoBundle) demoCreateBody =
    .callUpstream demoCreatePayload := by decide
example : putEvents (some demoBundle) "evt-1" demoUpdateBody =
    .callUpstream ("evt-1", demoUpdatePayload) := by decide

/-! Inversion lemmas shared by the claim theorems: when a handler reaches
its upstream call, the payload's enriched fields are the ones computed by
the enrichment functions. -/

theorem postEvents_payload (st : Option TokenBundle) (body : CreateBody)
    (p : EventPayload) (h : postEvents st body = .callUpstream p) :
    p.colorId = (declaredOrInferred body.type body.summary).bind
      (fun t => List.lookup t EVENT_COLOR_MAP) ∧
    p.reminders = createReminders body.reminders := by
  rw [postEvents] at h
  split at h
  · exact HandlerAction.noConfusion h
  · split at h
    · exact HandlerAction.noConfusion h
    · rw [HandlerAction.callUpstream.injEq] at h
      subst h
      exact ⟨rfl, rfl⟩

theorem putEvents_payload (st : Option TokenBundle) (eid : String)
    (body : UpdateBody) (p : String × UpdatePayload)
    (h : putEvents st eid body = .callUpstream p) :
    p.2.colorId = updateColorId body.type ∧
    p.2.reminders = updateReminders body.reminders := by
  rw [putEvents] at h
  split at h
  · exact HandlerAction.noConfusion h
  · rw [HandlerAction.callUpstream.injEq] at h
    subst h
    exact ⟨rfl, rfl⟩

theorem createReminders_useDefault (o : Option (List ReminderInput))
    (b : RemindersBlock) (h : createReminders o = some b) :
    b.useDefault = true := by
  cases o with
  | none => exact Option.noConfusion h
  | some rs =>
      by_cases hl : rs.length > 0
      · rw [createReminders, if_pos hl, Option.some.injEq] at h
        rw [← h]
      · rw [createReminders, if_neg hl] at h
        exact Option.noConfusion h

theorem updateReminders_useDefault (o : JsonField (List ReminderInput))
    (b : RemindersBlock) (h : updateReminders o = some b) :
    b.useDefault = true := by
  cases o with
  | absent => exact Option.noConfusion h
  | null => rw [updateReminders, Option.some.injEq] at h; rw [← h]
  | val rs =>
      by_cases hl : rs.length = 0
      · rw [updateReminders, if_pos hl, Option.some.injEq] at h; rw [← h]
      · rw [updateReminders, if_neg hl, Option.some.injEq] at h; rw [← h]

/-- C2: on the create path, the enriched event's colorId is set iff the
declared-or-inferred type exists and has an entry in `EVENT_COLOR_MAP`, in
which case it equals that entry; when no type is declared or inferred the
colorId field is left unset. -/
theorem create_colorId_iff (st : Option TokenBundle) (body : CreateBody)
    (p : EventPayload) (h : postEvents st body = .callUpstream p) :
    (∀ c, p.colorId = some c ↔
      ∃ t, declaredOrInferred body.type body.summary = some t ∧
        List.lookup t EVENT_COLOR_MAP = some c) ∧
    (declaredOrInferred body.type body.summary = none → p.colorId = none) := by
  obtain ⟨hc, -⟩ := postEvents_payload st body p h
  constructor
  · intro c
    rw [hc]
    exact Option.bind_eq_some'
  · intro hnone
    rw [hc, hnone]
    rfl

/-- C2 witness: a request carrying a family trigger in its summary, no
declared type, gets colorId "5". -/
theorem create_colorId_iff_witness :
    demoCreatePayload.colorId = some "5" ↔
      ∃ t, declaredOrInferred demoCreateBody.type demoCreateBody.summary =
        some t ∧ List.lookup t EVENT_COLOR_MAP = some "5" :=
  (create_colorId_iff (some demoBundle) demoCreateBody demoCreatePayload
    (by decide)).1 "5"

/-- C3: on the update path the type field has three-state semantics: absent
type → no colorId field; explicit null type → explicit null colorId; a type
with a color entry → that entry; a type without an entry → colorId omitted
(while the request still proceeds upstream, as hypothesis `h` records). -/
theorem update_colorId_three_state (st : Option TokenBundle) (eid : String)
    (body : UpdateBody) (p : String × UpdatePayload)
    (h : putEvents st eid body = .callUpstream p) :
    (body.type = .absent → p.2.colorId = .absent) ∧
    (body.type = .null → p.2.colorId = .null) ∧
    (∀ t c, body.type = .val t → List.lookup t EVENT_COLOR_MAP = some c →
      p.2.colorId = .val c) ∧
    (∀ t, body.type = .val t → List.lookup t EVENT_COLOR_MAP = none →
      p.2.colorId = .absent) := by
  obtain ⟨hc, -⟩ := putEvents_payload st eid body p h
  refine ⟨?_, ?_, ?_, ?_⟩
  · intro ht; rw [hc, ht]; rfl
  · intro ht; rw [hc, ht]; rfl
  · intro t c ht hlk; rw [hc, ht]; simp [updateColorId, hlk]
  · intro t ht hlk; rw [hc, ht]; simp [updateColorId, hlk]

/-- C3 witness: an update with `type: null` produces an explicit null
colorId in the outgoing payload. -/
theorem update_colorId_three_state_witness :
    demoUpdatePayload.colorId = JsonField.null :=
  (update_colorId_three_state (some demoBundle) "evt-1" demoUpdateBody
    ("evt-1", demoUpdatePayload) (by decide)).2.1 rfl

/-- C4: on the update path the reminders field has three-state semantics:
absent → no reminders block; explicit null or empty list → exactly
`{useDefault: true}` with no overrides array; non-empty list →
`{useDefault: true, overrides: mapped list}` with each method defaulted to
"popup" when unspecified. -/
theorem update_reminders_three_state (st : Option TokenBundle) (eid : String)
    (body : UpdateBody) (p : String × UpdatePayload)
    (h : putEvents st eid body = .callUpstream p) :
    (body.reminders = .absent → p.2.reminders = none) ∧
    (body.reminders = .null →
      p.2.reminders = some { useDefault := true, overrides := none }) ∧
    (body.reminders = .val [] →
      p.2.reminders = some { useDefault := true, overrides := none }) ∧
    (∀ rs, body.reminders = .val rs → rs ≠ [] →
      p.2.reminders =
        some { useDefault := true, overrides := some (rs.map mapReminder) }) := by
  obtain ⟨-, hr⟩ := putEvents_payload st eid body p h
  refine ⟨?_, ?_, ?_, ?_⟩
  · intro ht; rw [hr, ht]; rfl
  · intro ht; rw [hr, ht]; rfl
  · intro ht; rw [hr, ht]; rfl
  · intro rs ht hne
    rw [hr, ht]
    simp [updateReminders, List.length_eq_zero, hne]

/-- C4 witness: an update with `reminders: null` emits exactly
`{useDefault: true}` with no overrides array. -/
theorem update_reminders_three_state_witness :
    demoUpdatePayload.reminders =
      some { useDefault := true, overrides := none } :=
  (update_reminders_three_state (some demoBundle) "evt-1" demoUpdateBody
    ("evt-1", demoUpdatePayload) (by decide)).2.1 rfl

/-- C5: on the create path, absent or empty reminders leave the enriched
event without a reminders field at all; a non-empty list yields
`{useDefault: true, overrides: mapped list}` with method defaulted to
"popup" when unspecified and minutes passed through unchanged (see
`mapReminder`). -/
theorem create_reminders_cases (st : Option TokenBundle) (body : CreateBody)
    (p : EventPayload) (h : postEvents st body = .callUpstream p) :
    ((body.reminders = none ∨ body.reminders = some []) →
      p.reminders = none) ∧
    (∀ rs, body.reminders = some rs → rs ≠ [] →
      p.reminders =
        some { useDefault := true, overrides := some (rs.map mapReminder) }) := by
  obtain ⟨-, hr⟩ := postEvents_payload st body p h
  constructor
  · rintro (ht | ht) <;> rw [hr, ht] <;> rfl
  · intro rs ht hne
    rw [hr, ht]
    simp [createReminders, List.length_pos, hne]

/-- C5 witness: an explicit `reminders: [{method: "popup", minutes: 1440}]`
yields `{useDefault: true, overrides: [{method: "popup", minutes: 1440}]}`. -/
theorem create_reminders_cases_witness :
    demoReminderPayload.reminders =
      some { useDefault := true, overrides := some [⟨"popup", 1440⟩] } :=
  (create_reminders_cases (some demoBundle) demoReminderBody
      demoReminderPayload (by decide)).2
    [{ method := some "popup", minutes := 1440 }] rfl (by decide)

/-- C6: whenever any reminders block is emitted in an outgoing payload, on
the create path or on the update path, its useDefault field is true. -/
theorem reminders_always_useDefault :
    (∀ st body p b, postEvents st body = HandlerAction.callUpstream p →
      p.reminders = some b → b.useDefault = true) ∧
    (∀ st eid body p b, putEvents st eid body = HandlerAction.callUpstream p →
      p.2.reminders = some b → b.useDefault = true) := by
  constructor
  · intro st body p b h hb
    obtain ⟨-, hr⟩ := postEvents_payload st body p h
    rw [hr] at hb
    exact createReminders_useDefault _ _ hb
  · intro st eid body p b h hb
    obtain ⟨-, hr⟩ := putEvents_payload st eid body p h
    rw [hr] at hb
    exact updateReminders_useDefault _ _ hb

/-- C6 witness: the reminders block emitted for an update with
`reminders: null` has useDefault true. -/
theorem reminders_always_useDefault_witness :
    ({ useDefault := true, overrides := none } : RemindersBlock).useDefault =
      true :=
  reminders_always_useDefault.2 (some demoBundle) "evt-1" demoUpdateBody
    ("evt-1", demoUpdatePayload) { useDefault := true, overrides := none }
    (by decide) rfl

/-- C7: the token slot is absent at startup, so `isAuthenticated` is false
before any successful exchange; it is true immediately after any successful
exchange, whose new bundle unconditionally overwrites the whole slot; in
particular a second exchange replaces the old bundle wholesale, discarding
the old refresh token even when the new bundle lacks one. -/
theorem token_slot_lifecycle :
    isAuthenticated initialTokens = false ∧
    (∀ st c t, c ≠ "" →
      (handleCallback st (some c) (.ok t)).1 = some t ∧
      isAuthenticated (handleCallback st (some c) (.ok t)).1 = true) ∧
    (∀ old t2 c r, c ≠ "" → old.refresh_token = some r →
      t2.refresh_token = none →
      (handleCallback (some old) (some c) (.ok t2)).1 = some t2) := by
  refine ⟨rfl, ?_, ?_⟩
  · intro st c t hc
    constructor <;> simp [handleCallback, strFalsy, hc, isAuthenticated]
  · intro old t2 c r hc _ _
    simp [handleCallback, strFalsy, hc]

/-- C7 witness: a second exchange stores the new bundle even though it has
no refresh token and the previously stored bundle had one. -/
theorem token_slot_lifecycle_witness :
    (handleCallback (some demoBundle) (some "4auth-code")
      (.ok demoBundle2)).1 = some demoBundle2 :=
  token_slot_lifecycle.2.2 demoBundle demoBundle2 "4auth-code" "1refresh-old"
    (by decide) rfl rfl

/-- C8: every route under /events, /mail, /drive, /docs and /sheets answers
401 when no token bundle is stored, without reaching its upstream call; and
an authenticated `POST /events` whose summary, start or end is missing
answers 400, again before any upstream call. -/
theorem routes_auth_and_validation (body : CreateBody) (ub : UpdateBody)
    (eid mid tid fid did sid shid : String) (mr ps : Option Nat)
    (q rng : Option String) (tok : TokenBundle) (bad : CreateBody)
    (hbad : (strFalsy bad.summary || strFalsy bad.start ||
      strFalsy bad.endTime) = true) :
    getEvents none = .respond 401 ∧
    postEvents none body = .respond 401 ∧
    putEvents none eid ub = .respond 401 ∧
    deleteEvent none eid = .respond 401 ∧
    getMail none mr q = .respond 401 ∧
    getMailMessage none mid = .respond 401 ∧
    getMailThread none tid = .respond 401 ∧
    getDriveFiles none ps q = .respond 401 ∧
    getDriveFile none fid = .respond 401 ∧
    getDocument none did = .respond 401 ∧
    getSpreadsheet none sid = .respond 401 ∧
    getSheetData none sid shid rng = .respond 401 ∧
    postEvents (some tok) bad = .respond 400 := by
  refine ⟨rfl, rfl, rfl, rfl, rfl, rfl, rfl, rfl, rfl, rfl, rfl, rfl, ?_⟩
  simp [postEvents, hbad]

/-- C8 witness: with an empty token slot every route family answers 401,
and an authenticated create request missing its start answers 400. -/
theorem routes_auth_and_validation_witness :
    postEvents (some demoBundle) badBody = .respond 400 :=
  (routes_auth_and_validation demoCreateBody demoUpdateBody "e1" "m1" "t1"
    "f1" "d1" "s1" "sh1" none none none none demoBundle badBody
    (by decide)).2.2.2.2.2.2.2.2.2.2.2.2

/-- C9: on `POST /events` the authentication check precedes field
validation: with no stored token the answer is 401 whatever the body, and a
400 can only be observed while a token bundle is stored. -/
theorem post_auth_precedes_validation (st : Option TokenBundle)
    (body : CreateBody) (h : postEvents st body = .respond 400) :
    postEvents none body = .respond 401 ∧ st.isSome = true := by
  refine ⟨rfl, ?_⟩
  cases st with
  | none => simp [postEvents] at h
  | some t => rfl

/-- C9 witness: a body missing its start draws a 400 only when a token is
stored; the same body draws 401 when the slot is empty. -/
theorem post_auth_precedes_validation_witness :
    postEvents none badBody = .respond 401 ∧
    (some demoBundle : Option TokenBundle).isSome = true :=
  post_auth_precedes_validation (some demoBundle) badBody (by decide)

/-- C10: on the create path a falsy declared type (empty string or explicit
null) is treated identically to an absent one: type inference from the
summary runs and the whole handler result coincides with that for the same
body with the type field removed. -/
theorem falsy_declared_type_infers (st : Option TokenBundle)
    (body : CreateBody)
    (h : body.type = .val "" ∨ body.type = .null) :
    postEvents st body = postEvents st { body with type := .absent } := by
  have hd : declaredOrInferred body.type body.summary =
      declaredOrInferred JsonField.absent body.summary := by
    rcases h with h | h <;> rw [h] <;> rfl
  simp [postEvents, hd]

/-- The colorId carried by a create-handler outcome, none when the handler
responded early. -/
def payloadColorId : HandlerAction EventPayload → Option String
  | .callUpstream p => p.colorId
  | .respond _ => none

/-- C10 witness: a request declaring `type: ""` whose summary contains a
family trigger behaves exactly like one with no type field and still gets
the family colorId "5". -/
theorem falsy_declared_type_infers_witness :
    postEvents (some demoBundle) emptyTypeBody =
      postEvents (some demoBundle) { emptyTypeBody with type := .absent } ∧
    payloadColorId (postEvents (some demoBundle) emptyTypeBody) = some "5" :=
  ⟨falsy_declared_type_infers (some demoBundle) emptyTypeBody (Or.inl rfl),
   by decide⟩
